import Mathlib

/-!
A shallow embedding of the `dualiser.py` / `graphs.py` core of the
projective-duality plotting program, together with proofs checking the
specification's claims against it.

Real-valued Python floats are modelled as rationals (`ℚ`); the only
non-finite value the program ever produces is `math.inf` in the dual's
sentinel branch, modelled by a dedicated constructor `FVal.inf`.
-/

namespace Dualiser

/-- `math.inf`-or-finite value: the coordinates returned by `Point.dual`
are either finite floats or the `math.inf` sentinel. -/
inductive FVal where
  | fin : ℚ → FVal
  | inf : FVal
deriving DecidableEq, Repr

/-- A projective point in homogeneous coordinates, from `dualiser.Point`.
`z` defaults to `1`, as in the Python constructor. -/
structure Point where
  x : ℚ
  y : ℚ
  z : ℚ := 1
deriving DecidableEq, Repr

/-- `Point.dual` from `dualiser.py` lines 37-63: the two 2D points
returned to describe the dual line of `[x : y : z]`.  The comparisons to
zero are exact, as in the source. -/
def Point.dual (p : Point) : (FVal × FVal) × (FVal × FVal) :=
  if p.y = 0 then
    if p.x = 0 then
      ((FVal.inf, FVal.inf), (FVal.inf, FVal.inf))
    else
      ((FVal.fin (-p.z / p.x), FVal.fin (-1)),
       (FVal.fin (-p.z / p.x), FVal.fin 1))
  else
    let m := -p.x / p.y
    let c := -p.z / p.y
    ((FVal.fin (-1), FVal.fin (-m + c)),
     (FVal.fin 1, FVal.fin (m + c)))

/-- C1: for every point with `y ≠ 0` (exact comparison), `dual` returns
exactly `((-1, -m+c), (1, m+c))` with `m = -x/y` and `c = -z/y`. -/
theorem C1_slope_branch (p : Point) (hy : p.y ≠ 0) :
    p.dual =
      ((FVal.fin (-1), FVal.fin (-(-p.x / p.y) + -p.z / p.y)),
       (FVal.fin 1, FVal.fin (-p.x / p.y + -p.z / p.y))) := by
  simp [Point.dual, hy]

/-- C1 witness: `Point(1, 1, 0).dual = ((-1, 1), (1, -1))`. -/
theorem C1_slope_branch_witness :
    (Point.mk 1 1 0).dual =
      ((FVal.fin (-1), FVal.fin 1), (FVal.fin 1, FVal.fin (-1))) := by
  have h := C1_slope_branch (Point.mk 1 1 0) (by norm_num)
  norm_num at h
  exact h

/-- C2: for every point with `y = 0`: if `x ≠ 0` the dual is the vertical
pair `((-z/x, -1), (-z/x, 1))`; if also `x = 0` the dual is the infinity
sentinel.  No error is raised in either case (`dual` is total). -/
theorem C2_vertical_and_sentinel (p : Point) (hy : p.y = 0) :
    (p.x ≠ 0 →
      p.dual = ((FVal.fin (-p.z / p.x), FVal.fin (-1)),
                (FVal.fin (-p.z / p.x), FVal.fin 1))) ∧
    (p.x = 0 →
      p.dual = ((FVal.inf, FVal.inf), (FVal.inf, FVal.inf))) := by
  constructor
  · intro hx
    simp [Point.dual, hy, hx]
  · intro hx
    simp [Point.dual, hy, hx]

/-- C2 witness: `Point(5, 0, -10).dual = ((2, -1), (2, 1))`,
`Point(0, 0, 5).dual` and `Point(0, 0, 0).dual` are the sentinel. -/
theorem C2_vertical_and_sentinel_witness :
    (Point.mk 5 0 (-10)).dual =
      ((FVal.fin 2, FVal.fin (-1)), (FVal.fin 2, FVal.fin 1)) ∧
    (Point.mk 0 0 5).dual = ((FVal.inf, FVal.inf), (FVal.inf, FVal.inf)) ∧
    (Point.mk 0 0 0).dual = ((FVal.inf, FVal.inf), (FVal.inf, FVal.inf)) := by
  refine ⟨?_, ?_, ?_⟩
  · have h := (C2_vertical_and_sentinel (Point.mk 5 0 (-10)) rfl).1 (by norm_num)
    norm_num at h
    exact h
  · exact (C2_vertical_and_sentinel (Point.mk 0 0 5) rfl).2 rfl
  · exact (C2_vertical_and_sentinel (Point.mk 0 0 0) rfl).2 rfl

/-- The `ValueError`s of the source, called InvalidArgument by the spec. -/
inductive PlotError where
  | invalidArgument
deriving DecidableEq, Repr

/-- Python truthiness of an optional float argument (`not size`):
`None` and `0.0` are falsy, every other float is truthy. -/
def truthyQ : Option ℚ → Bool
  | none => false
  | some q => q != 0

/-- Python truthiness of an optional string argument (`not path`):
`None` and the empty string are falsy. -/
def truthyS : Option String → Bool
  | none => false
  | some s => s != ""

/-- The observable effects of one `plot` call, in order: the shared
canvas setup (xlim/ylim/aspect/axis-off), the dispatches to the
collection's `plot_points`/`plot_duals`, `plt.savefig`, `plt.show`. -/
inductive PlotAction where
  | setCanvas
  | plotPoints (size : ℚ)
  | plotDuals (width : ℚ)
  | savefig (path : String)
  | showFig
deriving DecidableEq, Repr

/-- `Points.plot` from `dualiser.py` lines 91-131, as the ordered list of
actions performed before returning or raising, paired with the raised
error (if any).  The argument checks use Python truthiness exactly as the
source does (`if not size and not width`, `if not path`). -/
def Points.plot (size width : Option ℚ) (save : Bool) (path : Option String) :
    List PlotAction × Option PlotError :=
  if truthyQ size = false && truthyQ width = false then
    ([], some PlotError.invalidArgument)
  else
    let acts0 : List PlotAction := [PlotAction.setCanvas]
    let acts1 :=
      if truthyQ size then acts0 ++ [PlotAction.plotPoints (size.getD 0)]
      else acts0
    let acts2 :=
      if truthyQ width then acts1 ++ [PlotAction.plotDuals (width.getD 0)]
      else acts1
    if save then
      if truthyS path then
        (acts2 ++ [PlotAction.savefig (path.getD ""), PlotAction.showFig], none)
      else
        (acts2, some PlotError.invalidArgument)
    else
      (acts2 ++ [PlotAction.showFig], none)

/-- `CubicCurve.plot` from `graphs.py` lines 162-183: rejects `size and
width` (Python truthiness), then delegates to the shared `Points.plot`. -/
def CubicCurve.plot (size width : Option ℚ) (save : Bool) (path : Option String) :
    List PlotAction × Option PlotError :=
  if truthyQ size && truthyQ width then
    ([], some PlotError.invalidArgument)
  else
    Points.plot size width save path

/-- C3 counterexample: with `size = 0.0` given and `width` absent, `plot`
raises InvalidArgument even though `size` was given, and never invokes
`plot_points` — refuting "raises exactly when neither is given" and
"whenever size is given it invokes plot_points(size)". -/
theorem C3_counterexample :
    ¬ ((((Points.plot (some 0) none false none).2 = some PlotError.invalidArgument) ↔
        ((some (0 : ℚ)) = none ∧ (none : Option ℚ) = none)) ∧
       (PlotAction.plotPoints 0 ∈ (Points.plot (some 0) none false none).1)) := by
  decide

/-- C3 amended: `plot` raises InvalidArgument exactly when neither `size`
nor `width` is truthy (`None` and `0.0` both count as absent), or when
`save` is requested without a truthy `path`; whenever `size` is truthy it
invokes `plot_points(size)`, and whenever `width` is truthy it invokes
`plot_duals(width)`. -/
theorem C3_amended (size width : Option ℚ) (save : Bool) (path : Option String) :
    ((Points.plot size width save path).2 = some PlotError.invalidArgument ↔
      ((truthyQ size = false ∧ truthyQ width = false) ∨
       ((truthyQ size = true ∨ truthyQ width = true) ∧
        save = true ∧ truthyS path = false))) ∧
    (∀ q : ℚ, size = some q → q ≠ 0 →
      PlotAction.plotPoints q ∈ (Points.plot size width save path).1) ∧
    (∀ q : ℚ, width = some q → q ≠ 0 →
      PlotAction.plotDuals q ∈ (Points.plot size width save path).1) := by
  have hsz0 : truthyQ size = false → ∀ q : ℚ, size = some q → q = 0 := by
    intro hf q hq
    subst hq
    simpa [truthyQ] using hf
  have hwd0 : truthyQ width = false → ∀ q : ℚ, width = some q → q = 0 := by
    intro hf q hq
    subst hq
    simpa [truthyQ] using hf
  unfold Points.plot
  rcases hs : truthyQ size <;> rcases hw : truthyQ width <;>
    rcases save <;> rcases hp : truthyS path <;> simp_all
  all_goals
    first
      | exact ⟨hsz0, hwd0⟩
      | exact hsz0
      | exact hwd0

/-- C3 amended witness at `size = 2`, `width = None`, no save. -/
theorem C3_amended_witness :
    (Points.plot (some 2) none false none).2 = none ∧
    PlotAction.plotPoints 2 ∈ (Points.plot (some 2) none false none).1 := by
  have h := C3_amended (some 2) none false none
  refine ⟨?_, h.2.1 2 rfl (by norm_num)⟩
  decide

/-- C4 counterexample: `plot(size=1, save=True, path=None)` does raise
InvalidArgument, but `plot_points(1)` has already been invoked by then —
refuting "no plot_points or plot_duals call happens before the error". -/
theorem C4_counterexample :
    ¬ ((Points.plot (some 1) none true none).2 = some PlotError.invalidArgument ∧
       PlotAction.plotPoints 1 ∉ (Points.plot (some 1) none true none).1) := by
  decide

/-- C4 amended: every `plot` call with `save` requested and `path` absent
fails with InvalidArgument, but the failure is raised only after any
requested `plot_points`/`plot_duals` drawing has already run; only the
`savefig` and final `show` steps are prevented. -/
theorem C4_amended (size width : Option ℚ) :
    (Points.plot size width true none).2 = some PlotError.invalidArgument ∧
    (∀ s : String, PlotAction.savefig s ∉ (Points.plot size width true none).1) ∧
    PlotAction.showFig ∉ (Points.plot size width true none).1 ∧
    (∀ q : ℚ, size = some q → q ≠ 0 →
      PlotAction.plotPoints q ∈ (Points.plot size width true none).1) ∧
    (∀ q : ℚ, width = some q → q ≠ 0 →
      PlotAction.plotDuals q ∈ (Points.plot size width true none).1) := by
  have hsz0 : truthyQ size = false → ∀ q : ℚ, size = some q → q = 0 := by
    intro hf q hq
    subst hq
    simpa [truthyQ] using hf
  have hwd0 : truthyQ width = false → ∀ q : ℚ, width = some q → q = 0 := by
    intro hf q hq
    subst hq
    simpa [truthyQ] using hf
  unfold Points.plot
  rcases hs : truthyQ size <;> rcases hw : truthyQ width <;>
    simp_all [truthyS]
  all_goals
    first
      | exact ⟨hsz0, hwd0⟩
      | exact hsz0
      | exact hwd0

/-- C4 amended witness at `size = 1, width = None` and at
`size = None, width = 3` (the shape `main.py` uses with `save=True`). -/
theorem C4_amended_witness :
    (Points.plot (some 1) none true none).2 = some PlotError.invalidArgument ∧
    PlotAction.plotPoints 1 ∈ (Points.plot (some 1) none true none).1 ∧
    (Points.plot none (some 3) true none).2 = some PlotError.invalidArgument ∧
    PlotAction.plotDuals 3 ∈ (Points.plot none (some 3) true none).1 := by
  have h1 := C4_amended (some 1) none
  have h2 := C4_amended none (some 3)
  exact ⟨h1.1, h1.2.2.2.1 1 rfl (by norm_num),
         h2.1, h2.2.2.2.2 3 rfl (by norm_num)⟩

/-- C5 counterexample: `CubicCurve.plot(size=0.0, width=1)` has both
arguments given simultaneously, yet no InvalidArgument is raised (Python
truthiness lets `size=0.0` through the `if size and width` check). -/
theorem C5_counterexample :
    ¬ ((CubicCurve.plot (some 0) (some 1) false none).2 =
        some PlotError.invalidArgument) := by
  decide

/-- C5 amended: the cubic-curve `plot` fails with InvalidArgument before
any drawing exactly when both `size` and `width` are truthy (`0.0`
counts as absent); in every other case it behaves exactly as the shared
`Points.plot`. -/
theorem C5_amended (size width : Option ℚ) (save : Bool) (path : Option String) :
    (truthyQ size = true ∧ truthyQ width = true →
      CubicCurve.plot size width save path = ([], some PlotError.invalidArgument)) ∧
    (¬ (truthyQ size = true ∧ truthyQ width = true) →
      CubicCurve.plot size width save path = Points.plot size width save path) := by
  constructor
  · intro h
    simp [CubicCurve.plot, h.1, h.2]
  · intro h
    rcases hs : truthyQ size <;> rcases hw : truthyQ width <;>
      simp_all [CubicCurve.plot]

/-- C5 amended witness: the spec's own example `plot(size=5, width=1)`
does fail with InvalidArgument before any drawing. -/
theorem C5_amended_witness :
    CubicCurve.plot (some 5) (some 1) false none =
      ([], some PlotError.invalidArgument) :=
  (C5_amended (some 5) (some 1) false none).1 (by constructor <;> rfl)

/-- A color handed to a draw call: either a color name/code string passed
through verbatim, or a sample of the `matplotlib.cm.jet` spectrum.  The
colormap itself is external library code, not part of this repository; it
is modelled symbolically as the sampling position, which keeps exactly the
injectivity/ordering content the program relies on. -/
inductive Color where
  | named : String → Color
  | jet : ℚ → Color
deriving DecidableEq, Repr

/-- `np.linspace(a, b, n)` over exact arithmetic: `n` evenly spaced
samples from `a` to `b` inclusive (`[a]` when `n = 1`, `[]` when `n = 0`). -/
def linspace (a b : ℚ) (n : ℕ) : List ℚ :=
  if n = 0 then []
  else if n = 1 then [a]
  else (List.range n).map fun i : ℕ => a + (i : ℚ) * (b - a) / ((n : ℚ) - 1)

/-- Python's `str.casefold`, modelled as per-character lowercasing (they
agree on the ASCII color specifiers this program compares). -/
def casefold (s : String) : List Char :=
  s.data.map Char.toLower

/-- `_plot_rainbow` from `dualiser.py` lines 154-168: build the color list
`[jet(x) for x in np.linspace(0.0, 1.0, len(points))]`, then invoke the
plotter on `(points[i], colors[i])` for each index in order.  The value
returned is the ordered list of plotter invocations. -/
def _plot_rainbow (points : List Point) : List (Point × Color) :=
  let colors := (linspace 0 1 points.length).map Color.jet
  points.enum.map fun ip => (ip.2, colors.getD ip.1 (Color.jet 0))

/-- `plot_points` from `dualiser.py` lines 171-179, as the ordered list of
`_plot_point` invocations `(point, color)`. -/
def plot_points (points : List Point) (color : String) : List (Point × Color) :=
  if casefold color = "rainbow".data then _plot_rainbow points
  else points.map fun p => (p, Color.named color)

/-- `plot_duals` from `dualiser.py` lines 182-190, as the ordered list of
`_plot_dual` invocations `(point, color)`. -/
def plot_duals (points : List Point) (color : String) : List (Point × Color) :=
  if casefold color = "rainbow".data then _plot_rainbow points
  else points.map fun p => (p, Color.named color)

/-- The `i`-th entry of `np.linspace(0, 1, n)` for `n ≥ 2` is `i/(n-1)`. -/
theorem linspace01_at (n : ℕ) (hn : 2 ≤ n) (i : ℕ) (hi : i < n) :
    (linspace 0 1 n)[i]? = some ((i : ℚ) / ((n : ℚ) - 1)) := by
  have h0 : n ≠ 0 := by omega
  have h1 : n ≠ 1 := by omega
  unfold linspace
  rw [if_neg h0, if_neg h1, List.getElem?_map, List.getElem?_range hi]
  simp only [Option.map_some']
  ring_nf

/-- C6: for `N > 1` points and a color specifier case-insensitively equal
to `"rainbow"`, the `i`-th point (in sequence order) is handed to the
point/dual plotter with the color sampled at `i / (N-1)` of the spectrum,
distinct indices get distinct samples, and any other color specifier is
applied uniformly to every element. -/
theorem C6_rainbow_coloring (points : List Point) (color : String)
    (hc : casefold color = "rainbow".data) (hN : 1 < points.length) :
    (∀ (i : ℕ) (p : Point), points[i]? = some p →
      (plot_points points color)[i]? =
        some (p, Color.jet ((i : ℚ) / ((points.length : ℚ) - 1))) ∧
      (plot_duals points color)[i]? =
        some (p, Color.jet ((i : ℚ) / ((points.length : ℚ) - 1)))) ∧
    (∀ i j : ℕ, i < points.length → j < points.length → i ≠ j →
      Color.jet ((i : ℚ) / ((points.length : ℚ) - 1)) ≠
        Color.jet ((j : ℚ) / ((points.length : ℚ) - 1))) ∧
    (∀ c : String, casefold c ≠ "rainbow".data →
      plot_points points c = points.map (fun p => (p, Color.named c)) ∧
      plot_duals points c = points.map (fun p => (p, Color.named c))) := by
  have hlen : 2 ≤ points.length := hN
  refine ⟨?_, ?_, ?_⟩
  · intro i p hp
    have hi : i < points.length := by
      rcases List.getElem?_eq_some.mp hp with ⟨h, _⟩
      exact h
    have hcol := linspace01_at points.length hlen i hi
    have hrb : (_plot_rainbow points)[i]? =
        some (p, Color.jet ((i : ℚ) / ((points.length : ℚ) - 1))) := by
      simp only [_plot_rainbow, List.getElem?_map, List.getElem?_enum, hp]
      simp [List.getD, hcol]
    exact ⟨by simpa [plot_points, hc] using hrb,
           by simpa [plot_duals, hc] using hrb⟩
  · intro i j _ _ hij
    intro h
    rw [Color.jet.injEq] at h
    have hd : ((points.length : ℚ) - 1) ≠ 0 := by
      have : (2 : ℚ) ≤ (points.length : ℚ) := by exact_mod_cast hlen
      linarith
    field_simp at h
    exact hij (by exact_mod_cast h)
  · intro c hcc
    exact ⟨by simp [plot_points, hcc], by simp [plot_duals, hcc]⟩

/-- C6 witness: two points colored `"RAINBOW"` receive the spectrum
samples at positions `0` and `1`. -/
theorem C6_rainbow_coloring_witness :
    (plot_points [Point.mk 0 0 1, Point.mk 1 1 1] "RAINBOW")[0]? =
      some (Point.mk 0 0 1, Color.jet 0) ∧
    (plot_points [Point.mk 0 0 1, Point.mk 1 1 1] "RAINBOW")[1]? =
      some (Point.mk 1 1 1, Color.jet 1) := by
  have h := C6_rainbow_coloring [Point.mk 0 0 1, Point.mk 1 1 1] "RAINBOW"
    (by decide) (by norm_num)
  have h0 := (h.1 0 (Point.mk 0 0 1) rfl).1
  have h1 := (h.1 1 (Point.mk 1 1 1) rfl).1
  norm_num at h0 h1
  exact ⟨h0, h1⟩

/-- `MIN_NUMBER_OF_POINTS` from `graphs.py`. -/
def MIN_NUMBER_OF_POINTS : ℤ := 2

/-- The `x` coordinate of the `i`-th cubic-curve point:
`lower + (i * diff / denominator)` with `lower = -10`, `diff = 20`,
`denominator = number - 1`, as in `CubicCurve.__init__`. -/
def cubicX (number : ℤ) (i : ℕ) : ℚ :=
  -10 + (i : ℚ) * 20 / ((number : ℚ) - 1)

/-- The `cubic_points` list built by `CubicCurve.__init__`:
`Point(x, x**3)` for each of the `number` sample positions (`z` defaults
to `1`). -/
def cubic_points (number : ℤ) : List Point :=
  (List.range number.toNat).map fun i =>
    { x := cubicX number i, y := cubicX number i ^ 3, z := 1 }

/-- `CubicCurve.__init__` from `graphs.py` lines 126-144: rejects
`number < MIN_NUMBER_OF_POINTS` with a `ValueError`, otherwise builds the
point list. -/
def CubicCurve.init (number : ℤ) : Except PlotError (List Point) :=
  if number < MIN_NUMBER_OF_POINTS then Except.error PlotError.invalidArgument
  else Except.ok (cubic_points number)

/-- C7: for `number ≥ 2`, construction succeeds with exactly `number`
points, the `i`-th having `x = -10 + i·20/(number-1)` (so the values run
from `-10` to `10` inclusive), `y = x³` and `z = 1`; for `number < 2`,
construction fails with InvalidArgument. -/
theorem C7_cubic_construction (number : ℤ) :
    (2 ≤ number →
      CubicCurve.init number = Except.ok (cubic_points number) ∧
      (cubic_points number).length = number.toNat ∧
      (∀ i : ℕ, i < (cubic_points number).length →
        (cubic_points number)[i]? =
          some { x := cubicX number i, y := cubicX number i ^ 3, z := 1 }) ∧
      cubicX number 0 = -10 ∧
      cubicX number (number.toNat - 1) = 10) ∧
    (number < 2 →
      CubicCurve.init number = Except.error PlotError.invalidArgument) := by
  constructor
  · intro h2
    have hnl : ¬ number < MIN_NUMBER_OF_POINTS := by
      simp only [MIN_NUMBER_OF_POINTS]
      omega
    refine ⟨by simp [CubicCurve.init, hnl], by simp [cubic_points], ?_, ?_, ?_⟩
    · intro i hi
      have hi' : i < number.toNat := by simpa [cubic_points] using hi
      simp [cubic_points, List.getElem?_map, List.getElem?_range hi']
    · simp [cubicX]
    · have hcast : ((number.toNat - 1 : ℕ) : ℚ) = (number : ℚ) - 1 := by
        have h1 : (1 : ℕ) ≤ number.toNat := by omega
        push_cast [Nat.cast_sub h1]
        have : ((number.toNat : ℤ) : ℚ) = (number : ℚ) := by
          norm_cast
          omega
        rw [← this]
        push_cast
        ring
      have hne : ((number : ℚ) - 1) ≠ 0 := by
        have : (2 : ℚ) ≤ (number : ℚ) := by exact_mod_cast h2
        linarith
      rw [cubicX, hcast]
      field_simp
      ring
  · intro hlt
    simp only [CubicCurve.init, MIN_NUMBER_OF_POINTS, if_pos hlt]

/-- C7 witness: `CubicCurve(1)` fails; `CubicCurve(3)` yields the three
points `(-10, -1000)`, `(0, 0)`, `(10, 1000)`. -/
theorem C7_cubic_construction_witness :
    CubicCurve.init 1 = Except.error PlotError.invalidArgument ∧
    CubicCurve.init 3 = Except.ok (cubic_points 3) ∧
    (cubic_points 3).length = 3 := by
  have h1 := (C7_cubic_construction 1).2 (by norm_num)
  have h3 := (C7_cubic_construction 3).1 (by norm_num)
  exact ⟨h1, h3.1, h3.2.1⟩

/-- `_plot_point` from `dualiser.py` lines 134-144: the dot drawn for a
point, `some (x/z, y/z)` when `z ≠ 0` and `none` (silent skip) when
`z = 0`. -/
def _plot_point (p : Point) : Option (ℚ × ℚ) :=
  if p.z ≠ 0 then some (p.x / p.z, p.y / p.z) else none

/-- C8: a point with `z ≠ 0` is drawn as exactly one dot at its affine
image `(x/z, y/z)`; a point with `z = 0` is silently skipped (no dot, no
error), yet `dual` still yields a (possibly sentinel) pair for it. -/
theorem C8_finite_image_skip (p : Point) :
    (p.z ≠ 0 → _plot_point p = some (p.x / p.z, p.y / p.z)) ∧
    (p.z = 0 → _plot_point p = none ∧ ∃ pr, p.dual = pr) := by
  refine ⟨fun hz => by simp [_plot_point, hz], fun hz => ⟨?_, p.dual, rfl⟩⟩
  simp [_plot_point, hz]

/-- C8 witness: `Point(1, 2, 2)` is drawn at `(1/2, 1)`; the point at
infinity `Point(1, 2, 0)` is skipped but still has a dual. -/
theorem C8_finite_image_skip_witness :
    _plot_point (Point.mk 1 2 2) = some (1 / 2, 1) ∧
    _plot_point (Point.mk 1 2 0) = none := by
  have ha := (C8_finite_image_skip (Point.mk 1 2 2)).1 (by norm_num)
  have hb := ((C8_finite_image_skip (Point.mk 1 2 0)).2 rfl).1
  norm_num at ha
  exact ⟨ha, hb⟩

/-- C9: the dual transform respects homogeneous rescaling — over exact
arithmetic, scaling all three coordinates by a nonzero `k` leaves the
returned pair unchanged. -/
theorem C9_dual_scale_invariant (x y z k : ℚ) (hk : k ≠ 0) :
    (Point.mk (k * x) (k * y) (k * z)).dual = (Point.mk x y z).dual := by
  have hy0 : (k * y = 0) = (y = 0) := by
    simp [mul_eq_zero, hk]
  have hx0 : (k * x = 0) = (x = 0) := by
    simp [mul_eq_zero, hk]
  unfold Point.dual
  simp only [hy0, hx0]
  by_cases hy : y = 0 <;> by_cases hx : x = 0 <;>
    simp [hy, hx, neg_div, mul_div_mul_left x y hk,
      mul_div_mul_left z y hk, mul_div_mul_left z x hk]

/-- C9 witness: `Point(2·1, 2·2, 2·3).dual = Point(1, 2, 3).dual`. -/
theorem C9_dual_scale_invariant_witness :
    (Point.mk (2 * 1) (2 * 2) (2 * 3)).dual = (Point.mk 1 2 3).dual :=
  C9_dual_scale_invariant 1 2 3 2 (by norm_num)

/-- C10: for every point with `(x, y) ≠ (0, 0)`, `dual` returns two
finite, mutually distinct coordinate pairs, each lying on the dual line
`x·X + y·Y + z = 0` — so `_plot_dual`'s line-through-two-points primitive
always receives a well-defined line. -/
theorem C10_dual_points_on_line (p : Point) (h : ¬(p.x = 0 ∧ p.y = 0)) :
    ∃ X₁ Y₁ X₂ Y₂ : ℚ,
      p.dual = ((FVal.fin X₁, FVal.fin Y₁), (FVal.fin X₂, FVal.fin Y₂)) ∧
      (X₁, Y₁) ≠ (X₂, Y₂) ∧
      p.x * X₁ + p.y * Y₁ + p.z = 0 ∧
      p.x * X₂ + p.y * Y₂ + p.z = 0 := by
  by_cases hy : p.y = 0
  · have hx : p.x ≠ 0 := by
      intro hx0
      exact h ⟨hx0, hy⟩
    refine ⟨-p.z / p.x, -1, -p.z / p.x, 1, ?_, ?_, ?_, ?_⟩
    · simp [Point.dual, hy, hx]
    · intro hc
      have h2 := congrArg Prod.snd hc
      norm_num at h2
    · rw [hy]
      field_simp
      ring
    · rw [hy]
      field_simp
      ring
  · refine ⟨-1, -(-p.x / p.y) + -p.z / p.y, 1, -p.x / p.y + -p.z / p.y,
      ?_, ?_, ?_, ?_⟩
    · simp [Point.dual, hy]
    · intro hc
      have h1 := congrArg Prod.fst hc
      norm_num at h1
    · field_simp
      try ring
    · field_simp
      try ring

/-- C10 witness at `Point(2, 3, 4)`. -/
theorem C10_dual_points_on_line_witness :
    ∃ X₁ Y₁ X₂ Y₂ : ℚ,
      (Point.mk 2 3 4).dual =
        ((FVal.fin X₁, FVal.fin Y₁), (FVal.fin X₂, FVal.fin Y₂)) ∧
      (X₁, Y₁) ≠ (X₂, Y₂) ∧
      2 * X₁ + 3 * Y₁ + 4 = 0 ∧
      2 * X₂ + 3 * Y₂ + 4 = 0 :=
  C10_dual_points_on_line (Point.mk 2 3 4) (by norm_num)

end Dualiser
